import Mathlib

/-!
Verification of the batching Elasticsearch writable stream
(`src/index.js`) against its specification.

The JavaScript source is shallowly embedded: records and wire entries are
structures, JS truthiness of optional string fields is the `truthy`
predicate, the stream's mutable state (`queue`, `writtenRecords`, the
flush timer) is a `WriterState` threaded explicitly, and the asynchronous
backend (`client.bulk`, `client.updateByQuery`) is modelled by passing the
response each call would receive as an `Except` argument.  Errors handed
to a callback become explicit error values in the outputs.
-/

/-- A document body.  For `update_by_query` records the `script` and
`query` sub-fields matter; everything else is the opaque payload `doc`.
JS truthiness of `script` / `query` is `truthy` on the `Option String`. -/
structure Body where
  script : Option String := none
  query : Option String := none
  doc : List (String × String) := []
deriving DecidableEq

/-- An input record as submitted by the caller.  Every field a record may
carry in `src/index.js`; `none` models an absent (undefined) field. -/
structure Record where
  index : Option String := none
  type : Option String := none
  id : Option String := none
  parent : Option String := none
  action : Option String := none
  body : Option Body := none
deriving DecidableEq

/-- JS truthiness of an optional string field: present and non-empty. -/
def truthy : Option String → Bool
  | none => false
  | some s => s ≠ ""

/-- `operation.action = operation.action || 'index'` from
`validateOperation`: a falsy action defaults to `"index"`. -/
def defaultAction (a : Option String) : String :=
  match a with
  | none => "index"
  | some s => if s = "" then "index" else s

/-- `validateOperation` (src/index.js:48-63).  Returns the record as the
function leaves it (the JS mutates its argument, setting the defaulted
`action`) together with the assertion message when some assert fails. -/
def validateOperation (operation : Record) : Record × Option String :=
  if truthy operation.index = false then
    (operation, some "index is required")
  else
    let a := defaultAction operation.action
    let op2 := { operation with action := some a }
    if a ≠ "delete" then
      match op2.body with
      | none => (op2, some "body is required")
      | some b =>
        if a = "update_by_query" then
          if truthy b.script = false then (op2, some "body.script is required")
          else if truthy b.query = false then (op2, some "body.query is required")
          else (op2, none)
        else (op2, none)
    else (op2, none)

/-- The header object built for a record by `transformRecords`
(src/index.js:20-29): `_index` and `_id` are copied unconditionally,
`_type` is spread in only when `record.type` is truthy, `_parent` is set
only when `record.parent` is truthy. -/
structure Header where
  _index : Option String
  _id : Option String
  _type : Option String
  _parent : Option String
deriving DecidableEq

/-- The key under which the header is stored: `operation[record.action]`.
An absent action would become the JS key `"undefined"`; validated records
always carry an action. -/
def actionKey (r : Record) : String :=
  match r.action with
  | none => "undefined"
  | some s => s

def mkHeader (record : Record) : Header :=
  { _index := record.index
    _id := record.id
    _type := if truthy record.type then record.type else none
    _parent := if truthy record.parent then record.parent else none }

/-- One element of the flattened bulk body: an action header, or a
document body (pushed as-is, so possibly absent). -/
inductive WireEntry
  | header (action : String) (hdr : Header)
  | bodyEntry (b : Option Body)
deriving DecidableEq

/-- The entries one record contributes inside the `reduce` of
`transformRecords`: its header, then its `body` unless the action is
`delete` (src/index.js:31-35). -/
def recordEntries (record : Record) : List WireEntry :=
  let head := WireEntry.header (actionKey record) (mkHeader record)
  if actionKey record = "delete" then [head]
  else [head, WireEntry.bodyEntry record.body]

/-- `transformRecords` (src/index.js:17-39): the `reduce` that pushes each
record's entries in queue order into one flat list. -/
def transformRecords (records : List Record) : List WireEntry :=
  records.flatMap recordEntries

/-- The `error` value a bulk-response item may carry: either a plain
string (older backends) or a structured object with optional `type` and
`reason` fields (newer backends). -/
inductive ErrVal
  | str (s : String)
  | obj (type : Option String) (reason : Option String)
deriving DecidableEq

/-- JS string conversion of a possibly-undefined value, as it happens in
`error.type + '[' + error.reason + ']'`. -/
def jsToString : Option String → String
  | none => "undefined"
  | some s => s

/-- The per-item step of the error `_.chain` in `bulkWrite`
(src/index.js:109-118): pluck the item's `error`; when it is an object
with a truthy `type`, compose `type + '[' + reason + ']'`; the following
`filter(_.isString)` then keeps exactly the string results. -/
def describeItem : Option ErrVal → Option String
  | none => none
  | some (ErrVal.str s) => some s
  | some (ErrVal.obj t r) =>
    if truthy t then some (jsToString t ++ "[" ++ jsToString r ++ "]") else none

/-- lodash `_.uniq`: drop duplicates, keeping the first occurrence.
`seen` accumulates the values already emitted. -/
def lodashUniqAux (seen : List String) : List String → List String
  | [] => []
  | x :: xs =>
    if x ∈ seen then lodashUniqAux seen xs
    else x :: lodashUniqAux (x :: seen) xs

def lodashUniq (l : List String) : List String :=
  lodashUniqAux [] l

/-- The whole error chain of `bulkWrite` over the response's items:
map, keep the strings, `uniq`. -/
def collectErrors (items : List (Option ErrVal)) : List String :=
  lodashUniq (items.filterMap describeItem)

/-- The bulk API response: the top-level `errors` flag and the per-item
results, each modelled by its (possibly absent) `error` value. -/
structure BulkResponse where
  errors : Bool
  items : List (Option ErrVal)
deriving DecidableEq

/-- What `bulkWrite` reports through its callback. `new Error(errors)`
stringifies the array, i.e. joins the descriptions with commas; both
error shapes carry `err.records = records`, the attempted batch. -/
inductive BulkOutcome
  | ok
  | transportError (records : List WireEntry)
  | itemErrors (message : String) (records : List WireEntry)
deriving DecidableEq

/-- `bulkWrite` (src/index.js:99-134), with the response the client would
deliver passed in: `.error` is a transport error from `client.bulk`,
`.ok data` is a delivered response. -/
def bulkWrite (records : List WireEntry) (resp : Except Unit BulkResponse) :
    BulkOutcome :=
  match resp with
  | Except.error _ => BulkOutcome.transportError records
  | Except.ok data =>
    if data.errors = true then
      BulkOutcome.itemErrors
        (String.intercalate "," (collectErrors data.items)) records
    else BulkOutcome.ok

/-- The mutable state of an `ElasticsearchWritable` instance: the queue,
the cumulative written-record counter, whether the flush timer is armed,
and the two configuration values set in the constructor. -/
structure WriterState where
  queue : List Record := []
  writtenRecords : Nat := 0
  timerArmed : Bool := false
  highWaterMark : Nat := 16
  flushTimeout : Bool := false
deriving DecidableEq

/-- The constructor (src/index.js:75-90): `highWaterMark || 16` and an
empty queue with the counter at zero. `flushTimeout` is kept as a flag
(configured or not); real time is not modelled. -/
def initWriter (highWaterMark : Option Nat) (flushTimeout : Bool) :
    WriterState :=
  { queue := []
    writtenRecords := 0
    timerArmed := false
    highWaterMark :=
      match highWaterMark with
      | none => 16
      | some n => if n = 0 then 16 else n
    flushTimeout := flushTimeout }

/-- A call made to the backend client. -/
inductive BackendCall
  | bulk (body : List WireEntry)
  | updateByQuery (operation : Record)
deriving DecidableEq

/-- The error `_flush` can hand to its callback. -/
inductive FlushError (E : Type)
  | transformFailed (e : E)
  | transport (records : List WireEntry)
  | items (message : String) (records : List WireEntry)
deriving DecidableEq

/-- The observable result of one `_flush` call: the callback's error (if
any), the state afterwards, and the backend calls made. -/
structure FlushOutput (E : Type) where
  error : Option (FlushError E)
  state : WriterState
  calls : List BackendCall
deriving DecidableEq

/-- `_flush` (src/index.js:185-218) with the transform as a parameter, so
that the `try { transformRecords } catch` control flow is embedded
faithfully: clear the timer, return at once on an empty queue, transform
(on a throw, return the error — note the queue has not been cleared yet),
then clear the queue, call `bulk` and on success add the snapshot's
record count to `writtenRecords`. -/
def flushWith {E : Type} (transform : List Record → Except E (List WireEntry))
    (st : WriterState) (resp : Except Unit BulkResponse) : FlushOutput E :=
  let st1 := { st with timerArmed := false }
  if st1.queue.length = 0 then
    { error := none, state := st1, calls := [] }
  else
    match transform st1.queue with
    | Except.error e =>
      { error := some (FlushError.transformFailed e), state := st1, calls := [] }
    | Except.ok records =>
      let recordsCount := st1.queue.length
      let st2 := { st1 with queue := [] }
      match bulkWrite records resp with
      | BulkOutcome.ok =>
        { error := none
          state := { st2 with
            writtenRecords := st2.writtenRecords + recordsCount }
          calls := [BackendCall.bulk records] }
      | BulkOutcome.transportError recs =>
        { error := some (FlushError.transport recs), state := st2
          calls := [BackendCall.bulk records] }
      | BulkOutcome.itemErrors msg recs =>
        { error := some (FlushError.items msg recs), state := st2
          calls := [BackendCall.bulk records] }

/-- `_flush` as the source runs it: the transform is `transformRecords`,
which (in this embedding, as in the JS on validated records) never
throws. -/
def flush (st : WriterState) (resp : Except Unit BulkResponse) :
    FlushOutput Unit :=
  flushWith (fun queue => Except.ok (transformRecords queue)) st resp

/-- The `updateByQuery` response: the updated-documents count and the
failure descriptors. -/
structure UbqResponse where
  updated : Nat
  failures : List String
deriving DecidableEq

/-- The error `_write` can hand to its callback.  The `ubq` errors carry
`err.operation = operation`: the caller's record, `action` still set. -/
inductive WriteError
  | validation (message : String)
  | flushFailed (e : FlushError Unit)
  | ubqTransport (operation : Record)
  | ubqFailures (operation : Record)
deriving DecidableEq

/-- The observable result of one `_write` call: the callback's error, the
state afterwards, the backend calls made, and the caller's record as the
call leaves it (the JS mutates the record it was handed). -/
structure WriteOutput where
  error : Option WriteError
  state : WriterState
  calls : List BackendCall
  record : Record
deriving DecidableEq

/-- `partialUpdate` (src/index.js:143-176), with the `updateByQuery`
response passed in.  The dispatched operation is a deep copy of the
record with `action` deleted; the caller's record is left as-is, and the
errors attach the original (action-bearing) record.  On success the
backend-reported `updated` count is added to `writtenRecords`. -/
def partialUpdate (st : WriterState) (operation : Record)
    (uresp : Except Unit UbqResponse) : WriteOutput :=
  let op := { operation with action := none }
  match uresp with
  | Except.error _ =>
    { error := some (WriteError.ubqTransport operation), state := st
      calls := [BackendCall.updateByQuery op], record := operation }
  | Except.ok data =>
    if data.failures.length ≠ 0 then
      { error := some (WriteError.ubqFailures operation), state := st
        calls := [BackendCall.updateByQuery op], record := operation }
    else
      { error := none
        state := { st with writtenRecords := st.writtenRecords + data.updated }
        calls := [BackendCall.updateByQuery op], record := operation }

/-- `_write` (src/index.js:229-261): validate (an assertion failure goes
to the callback, nothing is queued and no backend call is made);
`update_by_query` records bypass the queue via `partialUpdate`; otherwise
push, flush synchronously when the queue reaches `highWaterMark`, else
(re-)arm the flush timer when one is configured. -/
def write (st : WriterState) (record : Record)
    (resp : Except Unit BulkResponse) (uresp : Except Unit UbqResponse) :
    WriteOutput :=
  match validateOperation record with
  | (rec, some msg) =>
    { error := some (WriteError.validation msg), state := st, calls := []
      record := rec }
  | (rec, none) =>
    if rec.action = some "update_by_query" then
      partialUpdate st rec uresp
    else
      let st1 := { st with queue := st.queue ++ [rec] }
      if st1.highWaterMark ≤ st1.queue.length then
        let out := flush st1 resp
        { error := out.error.map WriteError.flushFailed, state := out.state
          calls := out.calls, record := rec }
      else if st1.flushTimeout then
        { error := none, state := { st1 with timerArmed := true }, calls := []
          record := rec }
      else
        { error := none, state := st1, calls := [], record := rec }

/-- A record as a caller would submit it, used as a concrete input. -/
def sampleRecord : Record :=
  { index := some "i", action := some "index", body := some {} }

/-- A writer whose queue holds exactly `sampleRecord`. -/
def sampleState : WriterState :=
  { queue := [sampleRecord], writtenRecords := 0, timerArmed := false,
    highWaterMark := 16, flushTimeout := false }

/-- A fully successful bulk response. -/
def okResponse : BulkResponse := { errors := false, items := [] }

/-- An item result carrying a structured `conflict`/`dup` error. -/
def dupItem : Option ErrVal := some (ErrVal.obj (some "conflict") (some "dup"))

/-- A bulk response whose `errors` flag is set, with one structured item
error. -/
def errResponse : BulkResponse := { errors := true, items := [dupItem] }

/-- A bulk response whose `errors` flag is set although no item carries a
describable error. -/
def flagOnlyResponse : BulkResponse := { errors := true, items := [] }

/-- A successful `updateByQuery` response. -/
def okUbqResponse : UbqResponse := { updated := 1, failures := [] }

/-! ## Helper lemmas -/

theorem lodashUniqAux_sublist (l : List String) :
    ∀ seen, (lodashUniqAux seen l).Sublist l := by
  induction l with
  | nil => intro seen; simp [lodashUniqAux]
  | cons x xs ih =>
    intro seen
    by_cases hx : x ∈ seen
    · simp only [lodashUniqAux, if_pos hx]
      exact (ih seen).trans (List.sublist_cons_self x xs)
    · simp only [lodashUniqAux, if_neg hx]
      exact List.Sublist.cons₂ x (ih (x :: seen))

theorem lodashUniqAux_mem (l : List String) :
    ∀ seen s, s ∈ lodashUniqAux seen l ↔ (s ∈ l ∧ s ∉ seen) := by
  induction l with
  | nil => intro seen s; simp [lodashUniqAux]
  | cons x xs ih =>
    intro seen s
    by_cases hx : x ∈ seen
    · rw [lodashUniqAux, if_pos hx, ih, List.mem_cons]
      constructor
      · rintro ⟨h1, h2⟩
        exact ⟨Or.inr h1, h2⟩
      · rintro ⟨h1 | h1, h2⟩
        · subst h1; exact absurd hx h2
        · exact ⟨h1, h2⟩
    · rw [lodashUniqAux, if_neg hx, List.mem_cons, List.mem_cons]
      constructor
      · rintro (rfl | h1)
        · exact ⟨Or.inl rfl, hx⟩
        · obtain ⟨h1, h2⟩ := (ih (x :: seen) s).mp h1
          exact ⟨Or.inr h1, fun hs => h2 (List.mem_cons_of_mem _ hs)⟩
      · rintro ⟨h1 | h1, h2⟩
        · exact Or.inl h1
        · by_cases hsx : s = x
          · exact Or.inl hsx
          · refine Or.inr ((ih (x :: seen) s).mpr ⟨h1, fun hs => ?_⟩)
            rcases List.mem_cons.mp hs with h | h
            · exact hsx h
            · exact h2 h

theorem lodashUniqAux_nodup (l : List String) :
    ∀ seen, (lodashUniqAux seen l).Nodup := by
  induction l with
  | nil => intro seen; simp [lodashUniqAux]
  | cons x xs ih =>
    intro seen
    by_cases hx : x ∈ seen
    · simpa [lodashUniqAux, hx] using ih seen
    · simp only [lodashUniqAux, if_neg hx]
      refine List.nodup_cons.mpr ⟨fun hmem => ?_, ih (x :: seen)⟩
      have := (lodashUniqAux_mem xs (x :: seen) x).mp hmem
      exact this.2 (List.mem_cons_self x seen)

theorem lodashUniq_sublist (l : List String) : (lodashUniq l).Sublist l :=
  lodashUniqAux_sublist l []

theorem lodashUniq_mem (l : List String) (s : String) :
    s ∈ lodashUniq l ↔ s ∈ l := by
  rw [lodashUniq, lodashUniqAux_mem]
  simp

theorem lodashUniq_nodup (l : List String) : (lodashUniq l).Nodup :=
  lodashUniqAux_nodup l []

theorem transform_cons (r : Record) (rs : List Record) :
    transformRecords (r :: rs) = recordEntries r ++ transformRecords rs := by
  simp [transformRecords]

theorem recordEntries_length (r : Record) :
    (recordEntries r).length = if actionKey r = "delete" then 1 else 2 := by
  by_cases h : actionKey r = "delete" <;> simp [recordEntries, h]

theorem transform_length_add (records : List Record) :
    (transformRecords records).length
      + (records.filter (fun r => actionKey r = "delete")).length
    = 2 * records.length := by
  induction records with
  | nil => rfl
  | cons r rs ih =>
    rw [transform_cons, List.length_append, recordEntries_length,
      List.filter_cons]
    by_cases h : actionKey r = "delete"
    · rw [if_pos h, if_pos (by simpa using h)]
      simp only [List.length_cons]
      omega
    · rw [if_neg h, if_neg (by simpa using h)]
      simp only [List.length_cons]
      omega

/-! ## Claims -/

/-- C3: for a queue of N validated records of which k have action
`delete`, the transform yields exactly 2N − k wire entries, in queue
order: each record contributes its header entry, followed by its body as
a separate entry unless the action is `delete`. -/
theorem spec_c3_wire_batch_size (records : List Record) :
    (transformRecords records).length
        = 2 * records.length
          - (records.filter (fun r => actionKey r = "delete")).length
    ∧ (transformRecords records).length
          + (records.filter (fun r => actionKey r = "delete")).length
        = 2 * records.length
    ∧ ∀ r rs, transformRecords (r :: rs)
        = WireEntry.header (actionKey r) (mkHeader r)
          :: (if actionKey r = "delete" then transformRecords rs
              else WireEntry.bodyEntry r.body :: transformRecords rs) := by
  refine ⟨?_, transform_length_add records, ?_⟩
  · have h := transform_length_add records
    omega
  · intro r rs
    by_cases h : actionKey r = "delete" <;>
      simp [transform_cons, recordEntries, h]

theorem truthyIf_eq_none (o : Option String) :
    ((if truthy o then o else none) = none) ↔ truthy o = false := by
  cases o with
  | none => simp [truthy]
  | some s => by_cases h : s = "" <;> simp [truthy, h]

theorem truthyIf_self_or_none (o : Option String) :
    (if truthy o then o else none) = o
      ∨ (if truthy o then o else none) = none := by
  by_cases h : truthy o = true
  · exact Or.inl (by simp [h])
  · exact Or.inr (by simp [Bool.not_eq_true] at h; simp [h])

theorem truthyIf_ne_some_empty (o : Option String) :
    (if truthy o then o else none) ≠ some "" := by
  cases o with
  | none => simp [truthy]
  | some s => by_cases h : s = "" <;> simp [truthy, h]

/-- C6: the emitted header entry copies the target index and the document
id, carries the `_type` tag exactly when the record's `type` is truthy
(never an empty tag), and carries `_parent` exactly when the record's
`parent` is truthy; the header is the first entry the record contributes
to the wire batch. -/
theorem spec_c6_header_contents (r : Record) :
    (mkHeader r)._index = r.index
    ∧ (mkHeader r)._id = r.id
    ∧ (((mkHeader r)._type = none) ↔ truthy r.type = false)
    ∧ ((mkHeader r)._type = r.type ∨ (mkHeader r)._type = none)
    ∧ (mkHeader r)._type ≠ some ""
    ∧ (((mkHeader r)._parent = none) ↔ truthy r.parent = false)
    ∧ ((mkHeader r)._parent = r.parent ∨ (mkHeader r)._parent = none)
    ∧ (recordEntries r).head?
        = some (WireEntry.header (actionKey r) (mkHeader r)) := by
  refine ⟨rfl, rfl, truthyIf_eq_none r.type, truthyIf_self_or_none r.type,
    truthyIf_ne_some_empty r.type, truthyIf_eq_none r.parent,
    truthyIf_self_or_none r.parent, ?_⟩
  by_cases h : actionKey r = "delete" <;> simp [recordEntries, h]

/-- C5: a structured item error with a truthy `type` is described as
`type[reason]`, a plain string error is kept raw, and the collected
description list is the deduplication of the per-item descriptions with
first occurrences kept in order (so two items with the same type+reason
yield a single description). -/
theorem spec_c5_error_dedup (t r s : String) (items : List (Option ErrVal))
    (ht : t ≠ "") :
    describeItem (some (ErrVal.obj (some t) (some r)))
        = some (t ++ "[" ++ r ++ "]")
    ∧ describeItem (some (ErrVal.str s)) = some s
    ∧ (collectErrors items).Nodup
    ∧ (collectErrors items).Sublist (items.filterMap describeItem)
    ∧ collectErrors items ⊆ items.filterMap describeItem
    ∧ items.filterMap describeItem ⊆ collectErrors items
    ∧ collectErrors
          [some (ErrVal.obj (some t) (some r)),
           some (ErrVal.obj (some t) (some r))]
        = [t ++ "[" ++ r ++ "]"] := by
  refine ⟨by simp [describeItem, truthy, jsToString, ht], rfl,
    lodashUniq_nodup _, lodashUniq_sublist _,
    fun d hd => (lodashUniq_mem _ d).mp hd,
    fun d hd => (lodashUniq_mem _ d).mpr hd, ?_⟩
  simp [collectErrors, describeItem, truthy, jsToString, ht,
    lodashUniq, lodashUniqAux]

/-- Witness for C5 at a concrete response: two items carrying the same
structured error (`conflict[dup]`) produce exactly one description. -/
theorem spec_c5_error_dedup_witness :
    (("conflict" : String) ≠ "")
    ∧ (describeItem (some (ErrVal.obj (some "conflict") (some "dup")))
          = some ("conflict" ++ "[" ++ "dup" ++ "]")
        ∧ describeItem (some (ErrVal.str "raw")) = some "raw"
        ∧ (collectErrors [some (ErrVal.str "raw"), some (ErrVal.str "raw")]).Nodup
        ∧ (collectErrors [some (ErrVal.str "raw"), some (ErrVal.str "raw")]).Sublist
            (([some (ErrVal.str "raw"),
               some (ErrVal.str "raw")] : List (Option ErrVal)).filterMap describeItem)
        ∧ collectErrors [some (ErrVal.str "raw"), some (ErrVal.str "raw")]
            ⊆ ([some (ErrVal.str "raw"),
                some (ErrVal.str "raw")] : List (Option ErrVal)).filterMap describeItem
        ∧ ([some (ErrVal.str "raw"),
            some (ErrVal.str "raw")] : List (Option ErrVal)).filterMap describeItem
            ⊆ collectErrors [some (ErrVal.str "raw"), some (ErrVal.str "raw")]
        ∧ collectErrors
              [some (ErrVal.obj (some "conflict") (some "dup")),
               some (ErrVal.obj (some "conflict") (some "dup"))]
            = ["conflict" ++ "[" ++ "dup" ++ "]"]) :=
  ⟨by decide,
   spec_c5_error_dedup "conflict" "dup" "raw"
     [some (ErrVal.str "raw"), some (ErrVal.str "raw")] (by decide)⟩

theorem flushWith_timerArmed {E : Type}
    (transform : List Record → Except E (List WireEntry))
    (st : WriterState) (resp : Except Unit BulkResponse) :
    (flushWith transform st resp).state.timerArmed = false := by
  unfold flushWith
  dsimp only
  split
  · rfl
  · split
    · rfl
    · split <;> rfl

/-- C9: every flush clears the flush timer as its first step
(`clearTimeout` is idempotent, so this holds whether or not a timer was
armed): after any flush, on every path — empty queue, transform failure,
backend success or failure — no timer remains armed. -/
theorem spec_c9_flush_clears_timer {E : Type}
    (transform : List Record → Except E (List WireEntry))
    (st : WriterState) (resp : Except Unit BulkResponse) :
    (flushWith transform st resp).state.timerArmed = false
    ∧ (flush st resp).state.timerArmed = false :=
  ⟨flushWith_timerArmed transform st resp,
   flushWith_timerArmed _ st resp⟩

/-- C8: flushing with an empty queue succeeds immediately and makes no
backend call; the only state change is the timer cancellation.  Closing
the stream performs exactly this `_flush`, so a close on an empty queue
never invokes `bulk`. -/
theorem spec_c8_empty_queue_flush (st : WriterState)
    (resp : Except Unit BulkResponse) (h : st.queue = []) :
    (flush st resp).error = none
    ∧ (flush st resp).calls = []
    ∧ (flush st resp).state = { st with timerArmed := false } := by
  simp [flush, flushWith, h]

/-- Witness for C8: a fresh writer has an empty queue, and flushing it
(whatever response the backend would have given) succeeds with no call. -/
theorem spec_c8_empty_queue_flush_witness :
    (initWriter none false).queue = []
    ∧ ((flush (initWriter none false)
          (Except.ok { errors := false, items := [] })).error = none
        ∧ (flush (initWriter none false)
            (Except.ok { errors := false, items := [] })).calls = []
        ∧ (flush (initWriter none false)
            (Except.ok { errors := false, items := [] })).state
          = { initWriter none false with timerArmed := false }) :=
  ⟨rfl, spec_c8_empty_queue_flush (initWriter none false)
    (Except.ok { errors := false, items := [] }) rfl⟩


/-- C1 counterexample: a bulk response with `errors: true` and no
item-level error descriptions (`items` empty).  The collected description
set is empty, yet the flush fails — the claim says an empty collected set
means success regardless of the top-level `errors` flag. -/
theorem spec_c1_counterexample :
    collectErrors flagOnlyResponse.items = []
    ∧ (flush sampleState (Except.ok flagOnlyResponse)).error ≠ none := by
  constructor
  · rfl
  · decide

/-- C1 (amended): the flush outcome for a delivered bulk response is
decided by the response's top-level `errors` flag, not by the collected
description set: when the flag is true the flush fails, the error's
display message being the deduplicated item-level descriptions joined
with commas (possibly empty) and the attempted batch attached; when the
flag is false the flush succeeds regardless of the items. -/
theorem spec_c1_flush_outcome (st : WriterState) (data : BulkResponse)
    (h : st.queue ≠ []) :
    ((flush st (Except.ok data)).error = none ↔ data.errors = false)
    ∧ (data.errors = true →
        (flush st (Except.ok data)).error
          = some (FlushError.items
              (String.intercalate "," (collectErrors data.items))
              (transformRecords st.queue))) := by
  have hq0 : ¬ st.queue.length = 0 := by simpa using h
  cases hb : data.errors <;>
    simp [flush, flushWith, bulkWrite, hq0, hb]

/-- Witness for C1 (amended) on a one-record queue and a response with a
single structured item error. -/
theorem spec_c1_flush_outcome_witness :
    sampleState.queue ≠ []
    ∧ (((flush sampleState (Except.ok errResponse)).error = none
        ↔ errResponse.errors = false)
      ∧ (errResponse.errors = true →
          (flush sampleState (Except.ok errResponse)).error
            = some (FlushError.items
                (String.intercalate "," (collectErrors errResponse.items))
                (transformRecords sampleState.queue)))) :=
  ⟨by decide, spec_c1_flush_outcome sampleState errResponse (by decide)⟩

/-- C4 counterexample: when the transform of a one-record queue fails,
the flush reports the transform error but the record is still in the live
queue — against the claim that the queue no longer contains the records
being flushed. -/
theorem spec_c4_counterexample :
    (flushWith (fun _ => Except.error "wire-level constraint violated")
        sampleState (Except.ok okResponse)).error
      = some (FlushError.transformFailed "wire-level constraint violated")
    ∧ (flushWith (fun _ => Except.error "wire-level constraint violated")
        sampleState (Except.ok okResponse)).state.queue
      = [sampleRecord] :=
  ⟨rfl, rfl⟩

/-- C4 (amended): if the transform of the queue fails during flush, the
flush fails with the transform error and no backend call is made, but the
records are not lost: the live queue still contains them, because the
queue is cleared only after a successful transform. -/
theorem spec_c4_transform_failure {E : Type}
    (transform : List Record → Except E (List WireEntry))
    (st : WriterState) (resp : Except Unit BulkResponse) (e : E)
    (hq : st.queue ≠ []) (he : transform st.queue = Except.error e) :
    (flushWith transform st resp).error
        = some (FlushError.transformFailed e)
    ∧ (flushWith transform st resp).state.queue = st.queue
    ∧ (flushWith transform st resp).calls = []
    ∧ (flushWith transform st resp).state.writtenRecords
        = st.writtenRecords := by
  have hq0 : ¬ st.queue.length = 0 := by simpa using hq
  simp [flushWith, hq0, he]

/-- Witness for C4 (amended) with a concrete failing transform and a
one-record queue. -/
theorem spec_c4_transform_failure_witness :
    sampleState.queue ≠ []
    ∧ (fun _ : List Record =>
        (Except.error "boom" : Except String (List WireEntry)))
        sampleState.queue = Except.error "boom"
    ∧ ((flushWith (fun _ => Except.error "boom") sampleState
          (Except.ok okResponse)).error
          = some (FlushError.transformFailed "boom")
        ∧ (flushWith (fun _ => Except.error "boom") sampleState
            (Except.ok okResponse)).state.queue = sampleState.queue
        ∧ (flushWith (fun _ => Except.error "boom") sampleState
            (Except.ok okResponse)).calls = []
        ∧ (flushWith (fun _ => Except.error "boom") sampleState
            (Except.ok okResponse)).state.writtenRecords
          = sampleState.writtenRecords) :=
  ⟨by decide, rfl,
   spec_c4_transform_failure (fun _ => Except.error "boom") sampleState
     (Except.ok okResponse) "boom" (by decide) rfl⟩

/-- C7: the cumulative written-record counter starts at 0; a successful
flush of a non-empty queue adds exactly the number of source records in
the snapshot (not the number of wire entries sent), and a failed flush
leaves the counter unchanged. -/
theorem spec_c7_written_counter (st : WriterState)
    (resp : Except Unit BulkResponse) (h : st.queue ≠ []) :
    (initWriter none false).writtenRecords = 0
    ∧ ((flush st resp).error = none →
        (flush st resp).state.writtenRecords
          = st.writtenRecords + st.queue.length)
    ∧ ((flush st resp).error ≠ none →
        (flush st resp).state.writtenRecords = st.writtenRecords) := by
  have hq0 : ¬ st.queue.length = 0 := by simpa using h
  cases resp with
  | error e =>
    refine ⟨rfl, ?_, ?_⟩ <;> intro he <;>
      simp [flush, flushWith, bulkWrite, hq0] at he ⊢
  | ok data =>
    cases hb : data.errors <;>
      refine ⟨rfl, ?_, ?_⟩ <;> intro he <;>
        simp [flush, flushWith, bulkWrite, hq0, hb] at he ⊢

/-- Witness for C7 on a one-record queue with a successful response: the
counter rises from 0 to 1. -/
theorem spec_c7_written_counter_witness :
    sampleState.queue ≠ []
    ∧ ((initWriter none false).writtenRecords = 0
      ∧ ((flush sampleState (Except.ok okResponse)).error = none →
          (flush sampleState (Except.ok okResponse)).state.writtenRecords
            = sampleState.writtenRecords + sampleState.queue.length)
      ∧ ((flush sampleState (Except.ok okResponse)).error ≠ none →
          (flush sampleState (Except.ok okResponse)).state.writtenRecords
            = sampleState.writtenRecords)) :=
  ⟨by decide,
   spec_c7_written_counter sampleState (Except.ok okResponse) (by decide)⟩

theorem write_validation_error (st : WriterState) (r : Record)
    (resp : Except Unit BulkResponse) (uresp : Except Unit UbqResponse)
    (msg : String) (h : (validateOperation r).2 = some msg) :
    write st r resp uresp
      = { error := some (WriteError.validation msg), state := st, calls := []
          record := (validateOperation r).1 } := by
  rcases hv : validateOperation r with ⟨rec, err⟩
  rw [hv] at h
  simp only at h
  subst h
  simp [write, hv]

theorem validate_err_index (r : Record) (hi : truthy r.index = false) :
    (validateOperation r).2 = some "index is required" := by
  simp [validateOperation, hi]

theorem validate_err_body (r : Record) (hi : truthy r.index = true)
    (hd : defaultAction r.action ≠ "delete") (hb : r.body = none) :
    (validateOperation r).2 = some "body is required" := by
  simp [validateOperation, hi, hd, hb]

theorem validate_err_script (r : Record) (b : Body)
    (hi : truthy r.index = true)
    (hu : defaultAction r.action = "update_by_query") (hb : r.body = some b)
    (hs : truthy b.script = false) :
    (validateOperation r).2 = some "body.script is required" := by
  have hd : defaultAction r.action ≠ "delete" := by
    rw [hu]; decide
  simp [validateOperation, hi, hd, hb, hu, hs]

theorem validate_err_query (r : Record) (b : Body)
    (hi : truthy r.index = true)
    (hu : defaultAction r.action = "update_by_query") (hb : r.body = some b)
    (hs : truthy b.script = true) (hq : truthy b.query = false) :
    (validateOperation r).2 = some "body.query is required" := by
  have hd : defaultAction r.action ≠ "delete" := by
    rw [hu]; decide
  simp [validateOperation, hi, hd, hb, hu, hs, hq]

/-- C2: a record violating a validation invariant (falsy `index`; absent
`body` when the action is not `delete`; falsy `body.script` or
`body.query` when the action is `update_by_query`) fails `_write`
immediately, with the writer state untouched (nothing queued) and no
backend call made, and the assert message names the offending field: a
falsy `index` yields "index is required"; a truthy `index` with the
`body` missing (action not `delete`) yields "body is required"; an
`update_by_query` record with a body but falsy `script` yields
"body.script is required"; one with truthy `script` but falsy `query`
yields "body.query is required" (the asserts fire in source order). -/
theorem spec_c2_validation_failure (st : WriterState) (r : Record)
    (resp : Except Unit BulkResponse) (uresp : Except Unit UbqResponse)
    (h : truthy r.index = false
       ∨ (defaultAction r.action ≠ "delete" ∧ r.body = none)
       ∨ (defaultAction r.action = "update_by_query"
          ∧ ∃ b, r.body = some b
            ∧ (truthy b.script = false ∨ truthy b.query = false))) :
    ∃ msg, (write st r resp uresp).error = some (WriteError.validation msg)
      ∧ (write st r resp uresp).state = st
      ∧ (write st r resp uresp).calls = []
      ∧ (truthy r.index = false → msg = "index is required")
      ∧ (truthy r.index = true → defaultAction r.action ≠ "delete" →
          r.body = none → msg = "body is required")
      ∧ (∀ b, truthy r.index = true →
          defaultAction r.action = "update_by_query" → r.body = some b →
          truthy b.script = false → msg = "body.script is required")
      ∧ (∀ b, truthy r.index = true →
          defaultAction r.action = "update_by_query" → r.body = some b →
          truthy b.script = true → truthy b.query = false →
          msg = "body.query is required") := by
  by_cases hi : truthy r.index = false
  · have hw := write_validation_error st r resp uresp _ (validate_err_index r hi)
    refine ⟨"index is required", by rw [hw], by rw [hw], by rw [hw],
      fun _ => rfl, ?_, ?_, ?_⟩
    · intro h1 _ _
      exact absurd h1 (by simp [hi])
    · intro b h1 _ _ _
      exact absurd h1 (by simp [hi])
    · intro b h1 _ _ _ _
      exact absurd h1 (by simp [hi])
  · have hi' : truthy r.index = true := by
      cases htr : truthy r.index
      · exact absurd htr hi
      · rfl
    cases hb : r.body with
    | none =>
      have hd : defaultAction r.action ≠ "delete" := by
        rcases h with h | ⟨hd, _⟩ | ⟨_, b', hb', _⟩
        · exact absurd h hi
        · exact hd
        · rw [hb] at hb'; cases hb'
      have hw := write_validation_error st r resp uresp _
        (validate_err_body r hi' hd hb)
      refine ⟨"body is required", by rw [hw], by rw [hw], by rw [hw], ?_,
        fun _ _ _ => rfl, ?_, ?_⟩
      · intro h1
        exact absurd h1 (by simp [hi'])
      · intro b' _ _ hb' _
        cases hb'
      · intro b' _ _ hb' _ _
        cases hb'
    | some b =>
      have hu : defaultAction r.action = "update_by_query"
          ∧ (truthy b.script = false ∨ truthy b.query = false) := by
        rcases h with h | ⟨_, hb'⟩ | ⟨hu, b', hb', hsq⟩
        · exact absurd h hi
        · rw [hb] at hb'; cases hb'
        · rw [hb] at hb'
          injection hb' with e
          subst e
          exact ⟨hu, hsq⟩
      obtain ⟨hu, hsq⟩ := hu
      by_cases hs : truthy b.script = false
      · have hw := write_validation_error st r resp uresp _
          (validate_err_script r b hi' hu hb hs)
        refine ⟨"body.script is required", by rw [hw], by rw [hw], by rw [hw],
          ?_, ?_, fun _ _ _ _ _ => rfl, ?_⟩
        · intro h1
          exact absurd h1 (by simp [hi'])
        · intro _ _ hb'
          cases hb'
        · intro b' _ _ hb' hs' _
          injection hb' with e
          subst e
          exact absurd hs' (by simp [hs])
      · have hst : truthy b.script = true := by
          cases hss : truthy b.script
          · exact absurd hss hs
          · rfl
        have hq : truthy b.query = false := by
          rcases hsq with h' | h'
          · exact absurd h' hs
          · exact h'
        have hw := write_validation_error st r resp uresp _
          (validate_err_query r b hi' hu hb hst hq)
        refine ⟨"body.query is required", by rw [hw], by rw [hw], by rw [hw],
          ?_, ?_, ?_, fun _ _ _ _ _ _ => rfl⟩
        · intro h1
          exact absurd h1 (by simp [hi'])
        · intro _ _ hb'
          cases hb'
        · intro b' _ _ hb' hsb
          injection hb' with e
          subst e
          exact absurd hsb (by simp [hst])

/-- Witness for C2: the empty record (falsy `index`) fails with the state
unchanged and no backend call; its message is pinned to
"index is required" by the attribution implication whose antecedent
holds. -/
theorem spec_c2_validation_failure_witness :
    (truthy ({} : Record).index = false
       ∨ (defaultAction ({} : Record).action ≠ "delete"
            ∧ ({} : Record).body = none)
       ∨ (defaultAction ({} : Record).action = "update_by_query"
            ∧ ∃ b, ({} : Record).body = some b
              ∧ (truthy b.script = false ∨ truthy b.query = false)))
    ∧ ∃ msg,
        (write (initWriter none false) {} (Except.ok okResponse)
          (Except.ok okUbqResponse)).error
          = some (WriteError.validation msg)
      ∧ (write (initWriter none false) {} (Except.ok okResponse)
          (Except.ok okUbqResponse)).state = initWriter none false
      ∧ (write (initWriter none false) {} (Except.ok okResponse)
          (Except.ok okUbqResponse)).calls = []
      ∧ (truthy ({} : Record).index = false → msg = "index is required")
      ∧ (truthy ({} : Record).index = true
          → defaultAction ({} : Record).action ≠ "delete"
          → ({} : Record).body = none → msg = "body is required")
      ∧ (∀ b, truthy ({} : Record).index = true
          → defaultAction ({} : Record).action = "update_by_query"
          → ({} : Record).body = some b
          → truthy b.script = false → msg = "body.script is required")
      ∧ (∀ b, truthy ({} : Record).index = true
          → defaultAction ({} : Record).action = "update_by_query"
          → ({} : Record).body = some b
          → truthy b.script = true → truthy b.query = false
          → msg = "body.query is required") :=
  ⟨Or.inl rfl,
   spec_c2_validation_failure (initWriter none false) {}
     (Except.ok okResponse) (Except.ok okUbqResponse) (Or.inl rfl)⟩

theorem partialUpdate_record (st : WriterState) (operation : Record)
    (uresp : Except Unit UbqResponse) :
    (partialUpdate st operation uresp).record = operation := by
  cases uresp with
  | error e => rfl
  | ok data =>
    by_cases hf : data.failures.length ≠ 0 <;> simp [partialUpdate, hf]

theorem partialUpdate_calls (st : WriterState) (operation : Record)
    (uresp : Except Unit UbqResponse) :
    (partialUpdate st operation uresp).calls
      = [BackendCall.updateByQuery { operation with action := none }] := by
  cases uresp with
  | error e => rfl
  | ok data =>
    by_cases hf : data.failures.length ≠ 0 <;> simp [partialUpdate, hf]

/-- C10: submitting mutates the caller's record in place.  A valid record
submitted with no `action` comes back with `action = "index"` written
into it, observable after the call; the `update_by_query` dispatch strips
`action` only from the deep copy handed to `updateByQuery` and leaves the
caller's record with its `action` intact. -/
theorem spec_c10_record_mutation (st : WriterState)
    (resp : Except Unit BulkResponse) (uresp : Except Unit UbqResponse)
    (r u : Record)
    (hri : truthy r.index = true) (hra : r.action = none)
    (hrb : ∃ b, r.body = some b)
    (hui : truthy u.index = true) (hua : u.action = some "update_by_query")
    (hub : ∃ b, u.body = some b
      ∧ truthy b.script = true ∧ truthy b.query = true) :
    (write st r resp uresp).record.action = some "index"
    ∧ (write st u resp uresp).record.action = some "update_by_query"
    ∧ (write st u resp uresp).calls
        = [BackendCall.updateByQuery { u with action := none }] := by
  obtain ⟨b, hb⟩ := hrb
  obtain ⟨bu, hbu, hbs, hbq⟩ := hub
  have hinr : ¬ truthy r.index = false := by simp [hri]
  have hinu : ¬ truthy u.index = false := by simp [hui]
  have hvr : validateOperation r = ({ r with action := some "index" }, none) := by
    simp [validateOperation, hinr, hra, defaultAction, hb]
  have hvu : validateOperation u
      = ({ u with action := some "update_by_query" }, none) := by
    simp [validateOperation, hinu, hua, defaultAction, hbu, hbs, hbq]
  have hwu : write st u resp uresp
      = partialUpdate st { u with action := some "update_by_query" } uresp := by
    simp [write, hvu]
  refine ⟨?_, ?_, ?_⟩
  · simp only [write, hvr]
    rw [if_neg (by simp)]
    split
    · rfl
    · split
      · rfl
      · rfl
  · rw [hwu, partialUpdate_record]
  · rw [hwu, partialUpdate_calls]

/-- Witness for C10: the record submitted without `action` is returned
with `action = "index"`; the `update_by_query` record keeps its action
while the dispatched copy carries none. -/
theorem spec_c10_record_mutation_witness :
    truthy ({ index := some "i", body := some {} } : Record).index = true
    ∧ ({ index := some "i", body := some {} } : Record).action = none
    ∧ (∃ b, ({ index := some "i", body := some {} } : Record).body = some b)
    ∧ truthy ({ index := some "i", action := some "update_by_query", body := some { script := some "s", query := some "q" } } : Record).index = true
    ∧ ({ index := some "i", action := some "update_by_query", body := some { script := some "s", query := some "q" } } : Record).action = some "update_by_query"
    ∧ (∃ b, ({ index := some "i", action := some "update_by_query", body := some { script := some "s", query := some "q" } } : Record).body = some b ∧ truthy b.script = true ∧ truthy b.query = true)
    ∧ (write (initWriter none false) { index := some "i", body := some {} } (Except.ok okResponse) (Except.ok okUbqResponse)).record.action = some "index"
    ∧ (write (initWriter none false) { index := some "i", action := some "update_by_query", body := some { script := some "s", query := some "q" } } (Except.ok okResponse) (Except.ok okUbqResponse)).record.action = some "update_by_query"
    ∧ (write (initWriter none false) { index := some "i", action := some "update_by_query", body := some { script := some "s", query := some "q" } } (Except.ok okResponse) (Except.ok okUbqResponse)).calls = [BackendCall.updateByQuery { index := some "i", action := none, body := some { script := some "s", query := some "q" } }] := by
  have h := spec_c10_record_mutation (initWriter none false)
    (Except.ok okResponse) (Except.ok okUbqResponse)
    { index := some "i", body := some {} }
    { index := some "i", action := some "update_by_query", body := some { script := some "s", query := some "q" } }
    (by decide) rfl ⟨{}, rfl⟩ (by decide) rfl
    ⟨{ script := some "s", query := some "q" }, rfl, by decide, by decide⟩
  exact ⟨by decide, rfl, ⟨{}, rfl⟩, by decide, rfl,
    ⟨{ script := some "s", query := some "q" }, rfl, by decide, by decide⟩,
    h.1, h.2.1, h.2.2⟩
